import Mathlib

/-!
Verification development for the `surfacerecon` offline analysis pipeline.

The Python sources are shallowly embedded: Python dicts become insertion-ordered
association lists, Python sets become insertion-ordered duplicate-free lists,
JSON values become the inductive `JVal`, machine text becomes `String` viewed as
its character list, and the two nondeterministic effects (the `random` module and
the network) become explicit oracles.  Every definition mirrors one function of
the repository, named after it; auxiliary purely-Lean helpers carry a `py` or
list-oriented name.
-/

set_option maxRecDepth 4000

namespace SurfaceRecon

/-! ## String helpers (Python `str` primitives over `List Char`)

Core `String.splitOn`/`String.replace` are compiled by well-founded recursion and
do not reduce inside the kernel, so the Python string primitives used by the
sources are re-implemented structurally over the character list. -/

/-- `needle` is a prefix of the character list. -/
def startsWithChars : List Char → List Char → Bool
  | [], _ => true
  | _ :: _, [] => false
  | a :: as, b :: bs => a == b && startsWithChars as bs

/-- `needle` occurs as a contiguous run of the character list (Python `in`). -/
def hasSubChars (needle : List Char) : List Char → Bool
  | [] => needle.isEmpty
  | b :: bs => startsWithChars needle (b :: bs) || hasSubChars needle bs

/-- Python `needle in hay` on strings. -/
def strContains (hay needle : String) : Bool :=
  hasSubChars needle.data hay.data

/-- Python `str.lower()` (ASCII, which is all the pipeline ever lowercases). -/
def lowerStr (s : String) : String :=
  String.mk (s.data.map Char.toLower)

/-- Python `str.isdigit()` on ASCII input: non-empty and all decimal digits. -/
def pyIsDigit (s : String) : Bool :=
  !s.isEmpty && s.data.all Char.isDigit

/-- Python `len` on text. -/
def pyLen (s : String) : Nat :=
  s.data.length

/-- Python slicing `s[:n]`. -/
def pySlice (s : String) (n : Nat) : String :=
  String.mk (s.data.take n)

/-- Worker for `pySplit`; the fuel starts at the input length, and each step
consumes at least one character, so the fuel never runs out. -/
def splitGo (sep : List Char) : Nat → List Char → List Char → List (List Char)
  | 0, acc, l => [acc.reverse ++ l]
  | fuel + 1, acc, l =>
    match l with
    | [] => [acc.reverse]
    | c :: cs =>
      if !sep.isEmpty && startsWithChars sep (c :: cs) then
        acc.reverse :: splitGo sep fuel [] ((c :: cs).drop sep.length)
      else
        splitGo sep fuel (c :: acc) cs

/-- Python `s.split(sep)` for a non-empty separator (the only way the sources
call it). -/
def pySplit (s sep : String) : List String :=
  (splitGo sep.data s.data.length [] s.data).map String.mk

/-- Worker for `pyReplace`, same fuel discipline as `splitGo`. -/
def replaceGo (pat rep : List Char) : Nat → List Char → List Char
  | 0, l => l
  | fuel + 1, l =>
    match l with
    | [] => []
    | c :: cs =>
      if !pat.isEmpty && startsWithChars pat (c :: cs) then
        rep ++ replaceGo pat rep fuel ((c :: cs).drop pat.length)
      else
        c :: replaceGo pat rep fuel cs

/-- Python `s.replace(pat, rep)` for a non-empty pattern (the only way the
sources call it): leftmost, non-overlapping, all occurrences. -/
def pyReplace (s pat rep : String) : String :=
  if pat.isEmpty then s
  else String.mk (replaceGo pat.data rep.data s.data.length s.data)

/-! ## Insertion-ordered dictionaries and sets

Python `dict` preserves insertion order; it is modelled by an association list
whose keys are unique by construction.  Python `set` iteration order is
implementation defined; it is modelled by an insertion-ordered list without
duplicates, which realises one legal iteration order. -/

/-- Python `d[k] = v` on an insertion-ordered dictionary. -/
def alistSet (l : List (String × α)) (k : String) (v : α) : List (String × α) :=
  if l.any (fun p => p.1 == k) then
    l.map (fun p => if p.1 == k then (k, v) else p)
  else l ++ [(k, v)]

/-- Python `d.get(k)` on an insertion-ordered dictionary. -/
def alistGet? (l : List (String × α)) (k : String) : Option α :=
  (l.find? (fun p => p.1 == k)).map (fun p => p.2)

/-- Python `s.add(v)` on a set of strings. -/
def pySetAdd (l : List String) (a : String) : List String :=
  if l.contains a then l else l ++ [a]

/-! ## JSON values -/

/-- JSON values as produced by `json.loads`. -/
inductive JVal where
  | jnum (n : Int)
  | jstr (s : String)
  | jbool (b : Bool)
  | jnull
  | jarr (xs : List JVal)
  | jobj (fields : List (String × JVal))

/-- Python truthiness of a JSON value (`if json_body:` and `if not target_id:`). -/
def jTruthy : JVal → Bool
  | .jnum n => n != 0
  | .jstr s => !s.isEmpty
  | .jbool b => b
  | .jnull => false
  | .jarr xs => !xs.isEmpty
  | .jobj fs => !fs.isEmpty

/-- Python `str(value)` on JSON scalars.  The embedded code only stringifies
scalars (dict/list cases are unreachable in the modelled flows and map to ""). -/
def pyStr : JVal → String
  | .jnum n => toString n
  | .jstr s => s
  | .jbool true => "True"
  | .jbool false => "False"
  | .jnull => "None"
  | .jarr _ => ""
  | .jobj _ => ""

/-- Python `==` on JSON values, restricted to scalars: `True == 1` and
`False == 0` hold in Python because `bool` is a subclass of `int`.  The
pipeline only compares identifier-pool values, which `IDPool.add` coerces to
`int` or `str`, so the composite cases (which Python compares structurally)
are never reached and return `false`. -/
def jScalarEq : JVal → JVal → Bool
  | .jnum a, .jnum b => a == b
  | .jbool a, .jbool b => a == b
  | .jbool a, .jnum b => (if a then (1 : Int) else 0) == b
  | .jnum a, .jbool b => a == (if b then (1 : Int) else 0)
  | .jstr a, .jstr b => a == b
  | .jnull, .jnull => true
  | _, _ => false

/-- Python `value.items()`.  In Python calling `.items()` on a non-dict raises
`AttributeError` and aborts the stage; theorems that traverse bodies therefore
carry a `body_obj_safe` hypothesis restricting to inputs on which the Python
code is total. -/
def jItems : JVal → List (String × JVal)
  | .jobj fs => fs
  | _ => []

/-- `isinstance(value, (str, int, float, bool))` — the scalar guard of the
body-parameter extraction. -/
def jIsScalar : JVal → Bool
  | .jnum _ => true
  | .jstr _ => true
  | .jbool _ => true
  | _ => false

/-! ## A JSON reader (`json.loads`)

Restricted to the grammar the pipeline's artifacts use: objects, arrays,
escape-free strings, integers, booleans and null.  Floats and string escapes
are rejected (parse failure); every concrete evaluation below stays inside the
handled fragment, and the general theorems treat the reader as opaque. -/

/-- Skip JSON whitespace. -/
def skipWs : List Char → List Char
  | [] => []
  | c :: cs =>
    if c == ' ' || c == '\n' || c == '\t' || c == '\r' then skipWs cs
    else c :: cs

/-- Longest prefix of decimal digits. -/
def takeDigits : List Char → List Char × List Char
  | [] => ([], [])
  | c :: cs =>
    if c.isDigit then
      let (ds, rest) := takeDigits cs
      (c :: ds, rest)
    else ([], c :: cs)

/-- Digits to a natural number. -/
def digitsToNat (ds : List Char) : Nat :=
  ds.foldl (fun n c => 10 * n + (c.toNat - 48)) 0

/-- True when the remainder begins like the fractional/exponent part of a JSON
float, which the reader rejects. -/
def isFloatStart : List Char → Bool
  | [] => false
  | c :: _ => c == '.' || c == 'e' || c == 'E'

/-- JSON string body after the opening quote; escapes are out of the fragment. -/
def jsonString : List Char → Option (String × List Char)
  | [] => none
  | c :: cs =>
    if c == '"' then some ("", cs)
    else if c == '\\' then none
    else (jsonString cs).map (fun p => (String.mk (c :: p.1.data), p.2))

mutual

/-- One JSON value; the fuel bounds the recursion and is never exhausted when
it starts at the input length plus two. -/
def jsonVal : Nat → List Char → Option (JVal × List Char)
  | 0, _ => none
  | fuel + 1, cs =>
    match skipWs cs with
    | [] => none
    | '{' :: rest =>
      match skipWs rest with
      | '}' :: r2 => some (.jobj [], r2)
      | r2 => (jsonMembers fuel r2).map (fun p => (.jobj p.1, p.2))
    | '[' :: rest =>
      match skipWs rest with
      | ']' :: r2 => some (.jarr [], r2)
      | r2 => (jsonElems fuel r2).map (fun p => (.jarr p.1, p.2))
    | '"' :: rest => (jsonString rest).map (fun p => (.jstr p.1, p.2))
    | 't' :: 'r' :: 'u' :: 'e' :: rest => some (.jbool true, rest)
    | 'f' :: 'a' :: 'l' :: 's' :: 'e' :: rest => some (.jbool false, rest)
    | 'n' :: 'u' :: 'l' :: 'l' :: rest => some (.jnull, rest)
    | '-' :: rest =>
      match takeDigits rest with
      | ([], _) => none
      | (ds, r) =>
        if isFloatStart r then none
        else some (.jnum (-(digitsToNat ds : Int)), r)
    | c :: rest =>
      if c.isDigit then
        match takeDigits (c :: rest) with
        | (ds, r) =>
          if isFloatStart r then none
          else some (.jnum (digitsToNat ds), r)
      else none

/-- Object members after the opening brace (non-empty case). -/
def jsonMembers : Nat → List Char → Option (List (String × JVal) × List Char)
  | 0, _ => none
  | fuel + 1, cs =>
    match skipWs cs with
    | '"' :: rest =>
      match jsonString rest with
      | none => none
      | some (k, r1) =>
        match skipWs r1 with
        | ':' :: r2 =>
          match jsonVal fuel r2 with
          | none => none
          | some (v, r3) =>
            match skipWs r3 with
            | ',' :: r4 => (jsonMembers fuel r4).map (fun p => ((k, v) :: p.1, p.2))
            | '}' :: r4 => some ([(k, v)], r4)
            | _ => none
        | _ => none
    | _ => none

/-- Array elements after the opening bracket (non-empty case). -/
def jsonElems : Nat → List Char → Option (List JVal × List Char)
  | 0, _ => none
  | fuel + 1, cs =>
    match jsonVal fuel cs with
    | none => none
    | some (v, r) =>
      match skipWs r with
      | ',' :: r2 => (jsonElems fuel r2).map (fun p => (v :: p.1, p.2))
      | ']' :: r2 => some ([v], r2)
      | _ => none

end

/-- `json.loads`: the whole input must be one value plus trailing whitespace. -/
def json_loads (s : String) : Option JVal :=
  match jsonVal (s.data.length + 2) s.data with
  | some (v, rest) => if (skipWs rest).isEmpty then some v else none
  | none => none

/-! ## `settings.py` -/

/-- `settings.DEFAULT_MAX_TESTS_PER_ENDPOINT`. -/
def DEFAULT_MAX_TESTS_PER_ENDPOINT : Nat := 30

/-- `settings.IDOR_TEST_COUNT`. -/
def IDOR_TEST_COUNT : Nat := 10

/-- `settings.AUTH_BYPASS_TEST_COUNT`. -/
def AUTH_BYPASS_TEST_COUNT : Nat := 5

/-- `settings.METHOD_CONFUSION_TEST_COUNT`. -/
def METHOD_CONFUSION_TEST_COUNT : Nat := 10

/-- `settings.MASS_ASSIGNMENT_TEST_COUNT`. -/
def MASS_ASSIGNMENT_TEST_COUNT : Nat := 5

/-- `settings.MAX_BODY_SIZE` (20 KiB). -/
def MAX_BODY_SIZE : Nat := 20 * 1024

/-- `settings.HTTP_METHODS`. -/
def HTTP_METHODS : List String :=
  ["GET", "POST", "PUT", "DELETE", "OPTIONS", "HEAD", "PATCH"]

/-- `settings.DESTRUCTIVE_METHODS`. -/
def DESTRUCTIVE_METHODS : List String := ["DELETE"]

/-- `settings.SUSPICIOUS_FIELDS`. -/
def SUSPICIOUS_FIELDS : List String :=
  ["isAdmin", "is_admin", "admin", "role", "roles", "isOwner", "is_owner",
   "owner", "permissions", "permission", "accessLevel", "access_level",
   "privileges", "privilege", "superuser", "super_user", "isSuperuser",
   "is_superuser"]

/-- `settings.SENSITIVE_FIELDS` (mixed case, exactly as in the source: the
camel-case entries can never match a lower-cased path by substring). -/
def SENSITIVE_FIELDS : List String :=
  ["ownerId", "owner_id", "userId", "user_id", "email", "role", "roles",
   "isAdmin", "is_admin", "permissions", "accessLevel", "access_level"]

/-- `settings.DEFAULT_RESEARCHER_HEADER`. -/
def DEFAULT_RESEARCHER_HEADER : List (String × String) :=
  [("User-Agent", "surfacerecon/1.0")]

/-- Numerator of `settings.LENGTH_DIFF_THRESHOLD = 0.30` in tenths; the
comparison `length_diff > 0.30` is modelled exactly as
`10 * |delta| > 3 * baseline`. -/
def LENGTH_DIFF_THRESHOLD_TENTHS : Nat := 3

/-- `settings.STATUS_CHANGE_HIGH`. -/
def STATUS_CHANGE_HIGH : List (Int × List Int) :=
  [(403, [200, 201, 204]), (401, [200, 201, 204]), (404, [200, 201, 204])]

/-- `settings.STATUS_CHANGE_MEDIUM`. -/
def STATUS_CHANGE_MEDIUM : List (Int × List Int) :=
  [(404, [200, 201, 204]), (400, [200, 201, 204])]

/-! ## `parser/har_parser.py` -/

/-- The embedded response of one captured transaction (the fields the offline
pipeline reads). -/
structure Response where
  status : Int
  body : String

/-- One entry of `requests.json` (the fields `parse_requests` reads). -/
structure CapturedRequest where
  method : String
  url : String
  post_data : String
  response : Option Response

/-- An endpoint model; `parameters` is split into its three fixed keys. -/
structure EndpointModel where
  method : String
  templated_path : String
  param_path : List (String × List String)
  param_query : List (String × List String)
  param_body : List (String × List String)
  sample_bodies : List JVal
  observed_ids : List (String × List String)

/-- `urlparse(url).path` for the URL shapes the pipeline sees: drop a
`scheme://authority` prefix when present. -/
def dropAuthority (s : String) : String :=
  if strContains s "://" then
    match pySplit s "://" with
    | [] => s
    | _ :: rest =>
      String.mk ((String.intercalate "://" rest).data.dropWhile (fun c => c != '/'))
  else s

/-- `har_parser.normalize_url`: `(urlparse(url).path, urlparse(url).query)`,
for URLs of the shape `[scheme://authority]path[?query][#fragment]`. -/
def normalize_url (url : String) : String × String :=
  let noFrag := (pySplit url "#").headD ""
  match pySplit noFrag "?" with
  | [] => ("", "")
  | base :: rest => (dropAuthority base, String.intercalate "?" rest)

/-- The hexadecimal-digit test of the UUID pattern (case-insensitive). -/
def isHexCI (c : Char) : Bool :=
  c.isDigit || ('a' ≤ c && c ≤ 'f') || ('A' ≤ c && c ≤ 'F')

/-- `re.match` against the canonical 8-4-4-4-12 UUID pattern, IGNORECASE. -/
def isUuidStr (s : String) : Bool :=
  match pySplit s "-" with
  | [a, b, c, d, e] =>
    a.length == 8 && b.length == 4 && c.length == 4 && d.length == 4 &&
    e.length == 12 &&
    (a.data ++ b.data ++ c.data ++ d.data ++ e.data).all isHexCI
  | _ => false

/-- Segment `i` of a path split on `/`, when it exists. -/
def segAt (p : String) (i : Nat) : Option String :=
  (pySplit p "/")[i]?

/-- The per-segment body of `har_parser.detect_template_path`'s loop:
digit segments win, then UUID segments, then a `{param}` for a segment that
differs from the group head and varies across the seen paths. -/
def templateSegment (head : String) (seen_paths : List String) (i : Nat)
    (segment : String) : String :=
  let is_numeric := seen_paths.any (fun sp =>
    match segAt sp i with
    | some seg => pyIsDigit seg
    | none => false)
  let is_uuid := seen_paths.any (fun sp =>
    match segAt sp i with
    | some seg => !pyIsDigit seg && isUuidStr seg
    | none => false)
  if is_numeric then "{id:int}"
  else if is_uuid then "{id:uuid}"
  else if segment != head && seen_paths.any (fun sp =>
      let segs := pySplit sp "/"
      decide (i < segs.length) && segs.getD i "" != segment) then
    "{param}"
  else segment

/-- `har_parser.detect_template_path`. -/
def detect_template_path (path : String) (seen_paths : List String) : String :=
  if seen_paths.isEmpty then path
  else
    let segments := pySplit path "/"
    let head := segments.headD ""
    String.intercalate "/"
      (segments.enum.map (fun p => templateSegment head seen_paths p.1 p.2))

/-- `urllib.parse.parse_qsl` on `&`-separated pairs: pairs without `=` or with
an empty value are dropped, the value keeps any further `=` signs.
Percent-decoding is outside the modelled fragment. -/
def parse_qsl (query : String) : List (String × String) :=
  (pySplit query "&").filterMap (fun pair =>
    match pySplit pair "=" with
    | [] => none
    | [_] => none
    | name :: rest =>
      let value := String.intercalate "=" rest
      if value.isEmpty then none else some (name, value))

/-- `har_parser.extract_query_params` (`parse_qs`): group values by name in
first-occurrence order. -/
def extract_query_params (query : String) : List (String × List String) :=
  if query.isEmpty then []
  else
    (parse_qsl query).foldl (fun acc kv =>
      match alistGet? acc kv.1 with
      | some vs => alistSet acc kv.1 (vs ++ [kv.2])
      | none => acc ++ [(kv.1, [kv.2])]) []

/-- `har_parser.extract_json_body`. -/
def extract_json_body (body : String) : Option JVal :=
  if body.isEmpty || body == "(unable to read body)" then none
  else json_loads body

/-- The body text `parse_requests` chooses for a grouped request: the request
`post_data` when non-empty, otherwise the *response* body (source lines
192-196, comment "Try response body for some cases"). -/
def chosen_body_text (req : CapturedRequest) : String :=
  if req.post_data.isEmpty then
    match req.response with
    | some resp => resp.body
    | none => ""
  else req.post_data

/-- Append a grouped request under its `(method, path)` key, preserving both
key insertion order and per-group request order (Python `defaultdict`). -/
def addToGroups (groups : List ((String × String) × List CapturedRequest))
    (key : String × String) (req : CapturedRequest) :
    List ((String × String) × List CapturedRequest) :=
  if groups.any (fun g => g.1 == key) then
    groups.map (fun g => if g.1 == key then (g.1, g.2 ++ [req]) else g)
  else groups ++ [(key, [req])]

/-- The grouping loop of `parse_requests`: requests without a response are
skipped; the key is `(method, urlparse(url).path)` — the *concrete* path. -/
def groupRequests (reqs : List CapturedRequest) :
    List ((String × String) × List CapturedRequest) :=
  reqs.foldl (fun groups req =>
    match req.response with
    | none => groups
    | some _ => addToGroups groups (req.method, (normalize_url req.url).1) req) []

/-- The query-parameter accumulation step of `parse_requests` for one request
(set-union of the parsed values per name). -/
def queryStep (acc : List (String × List String)) (req : CapturedRequest) :
    List (String × List String) :=
  let query := (normalize_url req.url).2
  if query.isEmpty then acc
  else
    (extract_query_params query).foldl (fun acc kv =>
      kv.2.foldl (fun acc v =>
        match alistGet? acc kv.1 with
        | some vs => alistSet acc kv.1 (pySetAdd vs v)
        | none => acc ++ [(kv.1, pySetAdd [] v)]) acc) acc

/-- Query parameters of one endpoint group. -/
def queryParamsOf (reqs : List CapturedRequest) : List (String × List String) :=
  reqs.foldl queryStep []

/-- The path-parameter accumulation step of `parse_requests` for one request:
segments that differ from the group's base path get the synthetic name
`param_{i}` (the `zip` guarantees `i < len(base_segments)`, so the source's
`"id"` fallback is dead). -/
def pathStep (base_path : String) (acc : List (String × List String))
    (req : CapturedRequest) : List (String × List String) :=
  let path_segments := pySplit (normalize_url req.url).1 "/"
  let base_segments := pySplit base_path "/"
  (path_segments.zip base_segments).enum.foldl (fun acc p =>
    let i := p.1
    let seg := p.2.1
    let base_seg := p.2.2
    if seg != base_seg then
      let param_name := "param_" ++ toString i
      match alistGet? acc param_name with
      | some vs => alistSet acc param_name (pySetAdd vs seg)
      | none => acc ++ [(param_name, pySetAdd [] seg)]
    else acc) acc

/-- Path parameters of one endpoint group. -/
def pathParamsOf (base_path : String) (reqs : List CapturedRequest) :
    List (String × List String) :=
  reqs.foldl (pathStep base_path) []

/-- The body accumulation step of `parse_requests` for one request: a truthy
JSON parse of the chosen body text is appended to `sample_bodies`, and its
top-level scalar values are added (string-coerced, set semantics) to the body
parameters. -/
def bodyStep (acc : List JVal × List (String × List String))
    (req : CapturedRequest) : List JVal × List (String × List String) :=
  match extract_json_body (chosen_body_text req) with
  | some jb =>
    if jTruthy jb then
      let samples := acc.1 ++ [jb]
      let params := (jItems jb).foldl (fun ps kv =>
        if jIsScalar kv.2 then
          match alistGet? ps kv.1 with
          | some vs => alistSet ps kv.1 (pySetAdd vs (pyStr kv.2))
          | none => ps ++ [(kv.1, pySetAdd [] (pyStr kv.2))]
        else ps) acc.2
      (samples, params)
    else acc
  | none => acc

/-- Sample bodies and raw body parameters of one endpoint group. -/
def bodyAccum (reqs : List CapturedRequest) :
    List JVal × List (String × List String) :=
  reqs.foldl bodyStep ([], [])

/-- The `observed_ids` assembly: path parameters always, query and body
parameters when the name contains `id` (case-insensitively); later sources
override earlier ones on a name collision. -/
def observedIdsOf (ppath pquery pbody : List (String × List String)) :
    List (String × List String) :=
  let o1 := ppath.foldl (fun acc kv => alistSet acc kv.1 (kv.2.take 20)) []
  let o2 := pquery.foldl (fun acc kv =>
    if strContains (lowerStr kv.1) "id" then alistSet acc kv.1 (kv.2.take 20)
    else acc) o1
  pbody.foldl (fun acc kv =>
    if strContains (lowerStr kv.1) "id" then alistSet acc kv.1 (kv.2.take 20)
    else acc) o2

/-- The per-group body of `parse_requests`: template detection over the
group's concrete paths, then query, path and body parameter extraction. -/
def buildEndpoint (method base_path : String) (reqs : List CapturedRequest) :
    EndpointModel :=
  let all_paths := reqs.map (fun r => (normalize_url r.url).1)
  let templated_path := detect_template_path base_path all_paths
  let pquery := queryParamsOf reqs
  let ppath := pathParamsOf base_path reqs
  let sp := bodyAccum reqs
  let pbody := sp.2.map (fun kv => (kv.1, kv.2.take 10))
  { method := method
    templated_path := templated_path
    param_path := ppath
    param_query := pquery
    param_body := pbody
    sample_bodies := sp.1.take 5
    observed_ids := observedIdsOf ppath pquery pbody }

/-- `har_parser.parse_requests` on an in-memory capture log. -/
def parse_requests (reqs : List CapturedRequest) : List EndpointModel :=
  (groupRequests reqs).map (fun g => buildEndpoint g.1.1 g.1.2 g.2)

/-- The chosen body text of the request parses to something Python can call
`.items()` on without raising: no parse, a falsy parse, or an object.  This is
exactly the domain on which the Python body loop is total. -/
def body_obj_safe (req : CapturedRequest) : Bool :=
  match extract_json_body (chosen_body_text req) with
  | some v =>
    !jTruthy v ||
    (match v with
     | .jobj _ => true
     | _ => false)
  | none => true

/-! ## `generator/test_generator.py`

The generator consumes the *enriched* endpoint JSON (after `id_inference`), so
its endpoint view carries the serialized `id_pools`.  `random.choice(seq)` is
modelled by an oracle of naturals: the `k`-th call picks index
`oracle k % len(seq)`; quantifying over the oracle covers every behaviour of
the process-level randomness the source uses. -/

/-- One serialized ID pool as the generator reads it (`integer_ids`,
`uuid_ids`, `string_ids`). -/
structure PoolDict where
  integer_ids : List JVal
  uuid_ids : List JVal
  string_ids : List JVal

/-- The fields of an enriched endpoint dict that the generator reads. -/
structure GenEndpoint where
  method : String
  templated_path : String
  sample_bodies : List (List (String × JVal))
  id_pools : List (String × PoolDict)

/-- `test_generator.TestCase`. -/
structure TestCase where
  test_id : String
  test_type : String
  endpoint : String
  method : String
  url : String
  headers : List (String × String)
  body : Option (List (String × JVal))
  cookies : Bool
  description : String

/-- `random.choice(l)` under the randomness oracle; the default is never used
because the source only calls `choice` on non-empty sequences. -/
def pyChoice (oracle : Nat → Nat) (k : Nat) (l : List α) (d : α) : α :=
  l.getD (oracle k % l.length) d

/-- All three buckets of a pool, concatenated as `generate_idor_tests` does. -/
def poolAll (p : PoolDict) : List JVal :=
  p.integer_ids ++ p.uuid_ids ++ p.string_ids

/-- The cross-endpoint pool union of `generate_idor_tests` (lines 76-86):
per pool name, the concatenation of every endpoint's bucket values, in
endpoint order then pool insertion order. -/
def build_all_id_pools (all_endpoints : List GenEndpoint) :
    List (String × List JVal) :=
  all_endpoints.foldl (fun acc ep =>
    ep.id_pools.foldl (fun acc kv =>
      match alistGet? acc kv.1 with
      | some ids => alistSet acc kv.1 (ids ++ poolAll kv.2)
      | none => acc ++ [(kv.1, poolAll kv.2)]) acc) []

/-- Outcome of one iteration of the IDOR loop: `halt` is the `break` on an
empty name list (unreachable under the non-empty-pools guard), `skip` a
`continue`; the `Nat` counts the `random.choice` calls consumed. -/
inductive IdorStep where
  | halt
  | skip (consumed : Nat)
  | emit (t : TestCase) (consumed : Nat)

/-- One iteration of the loop of `generate_idor_tests` (lines 93-153): pick a
source pool and an original id, search the global union in insertion order for
the first *other* pool holding a candidate different from the original, build
the URL by substituting the target into every placeholder of the templated
path, and rewrite id-like keys of the first sample body. -/
def idor_iteration (id_pools : List (String × PoolDict))
    (all_id_pools : List (String × List JVal))
    (templated_path method : String)
    (sample_bodies : List (List (String × JVal)))
    (oracle : Nat → Nat) (i k : Nat) : IdorStep :=
  let pool_names := id_pools.map (fun p => p.1)
  if pool_names.isEmpty then .halt
  else
    let source_pool_name := pyChoice oracle k pool_names ""
    let source_pool := (alistGet? id_pools source_pool_name).getD ⟨[], [], []⟩
    let source_ids := poolAll source_pool
    if source_ids.isEmpty then .skip 1
    else
      let original_id := pyChoice oracle (k + 1) source_ids .jnull
      let found := all_id_pools.findSome? (fun kv =>
        if kv.1 != source_pool_name && !kv.2.isEmpty then
          let candidate_ids := kv.2.filter (fun v => !jScalarEq v original_id)
          if candidate_ids.isEmpty then none
          else some (kv.1, candidate_ids)
        else none)
      match found with
      | none => .skip 2
      | some (target_pool_name, candidate_ids) =>
        let target_id := pyChoice oracle (k + 2) candidate_ids .jnull
        if !jTruthy target_id then .skip 3
        else
          let test_url :=
            pyReplace (pyReplace (pyReplace templated_path
              "{id:int}" (pyStr target_id))
              "{id:uuid}" (pyStr target_id))
              "{param}" (pyStr target_id)
          let test_body : Option (List (String × JVal)) :=
            match sample_bodies with
            | [] => none
            | b :: _ => some (b.map (fun kv =>
                if kv.1 == source_pool_name || strContains (lowerStr kv.1) "id"
                then (kv.1, target_id) else kv))
          .emit
            { test_id := "idor_" ++ templated_path ++ "_" ++ toString i
              test_type := "IDOR"
              endpoint := templated_path
              method := method
              url := test_url
              headers := []
              body := test_body
              cookies := true
              description := "IDOR: Replace " ++ source_pool_name ++ "=" ++
                pyStr original_id ++ " with " ++ target_pool_name ++ "=" ++
                pyStr target_id }
            3

/-- The iteration loop of `generate_idor_tests`; the first `Nat` is the number
of remaining iterations, then the iteration index `i` and the oracle cursor. -/
def idor_go (id_pools : List (String × PoolDict))
    (all_id_pools : List (String × List JVal))
    (templated_path method : String)
    (sample_bodies : List (List (String × JVal)))
    (oracle : Nat → Nat) : Nat → Nat → Nat → List TestCase
  | 0, _, _ => []
  | fuel + 1, i, k =>
    match idor_iteration id_pools all_id_pools templated_path method
        sample_bodies oracle i k with
    | .halt => []
    | .skip c =>
      idor_go id_pools all_id_pools templated_path method sample_bodies oracle
        fuel (i + 1) (k + c)
    | .emit t c =>
      t :: idor_go id_pools all_id_pools templated_path method sample_bodies
        oracle fuel (i + 1) (k + c)

/-- `test_generator.generate_idor_tests`. -/
def generate_idor_tests (endpoint : GenEndpoint)
    (all_endpoints : List GenEndpoint) (oracle : Nat → Nat)
    (count : Nat := IDOR_TEST_COUNT) : List TestCase :=
  if endpoint.id_pools.isEmpty then []
  else
    let all_id_pools := build_all_id_pools all_endpoints
    (idor_go endpoint.id_pools all_id_pools endpoint.templated_path
      endpoint.method endpoint.sample_bodies oracle
      (min count (endpoint.id_pools.length * 5)) 0 0).take count

/-- `test_generator.generate_auth_bypass_tests`: `count` copies of the
endpoint's own request with `cookies=False`. -/
def generate_auth_bypass_tests (endpoint : GenEndpoint)
    (count : Nat := AUTH_BYPASS_TEST_COUNT) : List TestCase :=
  (List.range count).map (fun i =>
    { test_id := "auth_bypass_" ++ endpoint.templated_path ++ "_" ++ toString i
      test_type := "AUTH_BYPASS"
      endpoint := endpoint.templated_path
      method := endpoint.method
      url := endpoint.templated_path
      headers := []
      body := none
      cookies := false
      description := "Auth bypass: Remove authentication cookies/headers" })

/-- `test_generator.generate_method_confusion_tests`: one variant per
alternative HTTP method, with DELETE filtered out unless `allow_destructive`. -/
def generate_method_confusion_tests (endpoint : GenEndpoint)
    (allow_destructive : Bool := false)
    (count : Nat := METHOD_CONFUSION_TEST_COUNT) : List TestCase :=
  let alt0 := HTTP_METHODS.filter (fun m => m != endpoint.method)
  let alt1 :=
    if !allow_destructive then
      alt0.filter (fun m => !DESTRUCTIVE_METHODS.contains m)
    else alt0
  let alternative_methods := alt1.take count
  alternative_methods.map (fun m =>
    let test_body : Option (List (String × JVal)) :=
      match endpoint.sample_bodies with
      | [] => none
      | b :: _ => some b
    { test_id := "method_confusion_" ++ endpoint.templated_path ++ "_" ++ m
      test_type := "METHOD_CONFUSION"
      endpoint := endpoint.templated_path
      method := m
      url := endpoint.templated_path
      headers := []
      body := test_body
      cookies := true
      description := "Method confusion: Try " ++ m ++ " instead of " ++
        endpoint.method })

/-- The injected value chosen by the name heuristics of
`generate_mass_assignment_tests` (lines 245-252).  Note the second test is
`"is" in field.lower()` — a substring containment, not a prefix test. -/
def mass_assignment_value (field : String) : JVal :=
  if strContains (lowerStr field) "admin" || strContains (lowerStr field) "is"
  then .jbool true
  else if strContains (lowerStr field) "role" then .jstr "admin"
  else if strContains (lowerStr field) "permission" ||
      strContains (lowerStr field) "access" then .jstr "full"
  else .jbool true

/-- `test_generator.generate_mass_assignment_tests`. -/
def generate_mass_assignment_tests (endpoint : GenEndpoint)
    (count : Nat := MASS_ASSIGNMENT_TEST_COUNT) : List TestCase :=
  if !(["POST", "PUT", "PATCH"].contains endpoint.method) then []
  else
    let base_body : List (String × JVal) :=
      match endpoint.sample_bodies with
      | [] => []
      | b :: _ => b
    let suspicious_fields := SUSPICIOUS_FIELDS.take count
    suspicious_fields.enum.map (fun p =>
      let field := p.2
      let value := mass_assignment_value field
      let test_body := alistSet base_body field value
      { test_id := "mass_assignment_" ++ endpoint.templated_path ++ "_" ++
          toString p.1
        test_type := "MASS_ASSIGNMENT"
        endpoint := endpoint.templated_path
        method := endpoint.method
        url := endpoint.templated_path
        headers := []
        body := some test_body
        cookies := true
        description := "Mass assignment: Add suspicious field " ++ field ++
          "=" ++ pyStr value })

/-- The per-endpoint block of `test_generator.generate_tests`: concatenate the
four class outputs in order and truncate to `max_tests`. -/
def generate_tests_for_endpoint (endpoint : GenEndpoint)
    (all_endpoints : List GenEndpoint) (oracle : Nat → Nat)
    (allow_destructive : Bool)
    (max_tests : Nat := DEFAULT_MAX_TESTS_PER_ENDPOINT) : List TestCase :=
  let ts :=
    generate_idor_tests endpoint all_endpoints oracle ++
    generate_auth_bypass_tests endpoint ++
    generate_method_confusion_tests endpoint allow_destructive ++
    generate_mass_assignment_tests endpoint
  if ts.length > max_tests then ts.take max_tests else ts

/-! ## `runner/test_runner.py`

The HTTP request of `run_single_test` is the only external effect; it is
modelled by a `NetOutcome` oracle whose four constructors are exactly the
four arms of the source's `try/except` (response, `httpx.TimeoutException`,
`httpx.RequestError`, any other `Exception`).  `asyncio.gather` returns one
result per task in task order, which `run_tests` mirrors with a `map`; no
exception escapes `run_single_test`'s handlers, so the `isinstance(result,
Exception)` fallback of the source is unreachable. -/

/-- Outcome of issuing one HTTP request. -/
inductive NetOutcome where
  | ok (status : Int) (status_text : String) (headers : List (String × String))
      (body : String)
  | timeout
  | requestError (detail : String)
  | unexpectedError (detail : String)

/-- The response record stored inside a test result. -/
structure ResponseRecord where
  status : Int
  status_text : String
  headers : List (String × String)
  body : String

/-- `test_runner` result dictionary. -/
structure TestResult where
  test_id : String
  test_type : String
  endpoint : String
  method : String
  url : String
  timestamp : String
  success : Bool
  error : Option String
  response : Option ResponseRecord

/-- Python `base.update(overrides)` merged left to right. -/
def dict_update (base overrides : List (String × String)) :
    List (String × String) :=
  overrides.foldl (fun acc kv => alistSet acc kv.1 kv.2) base

/-- `test_runner.run_single_test` (lines 40-138): build the merged headers and
the cookie mapping, issue the request through the network oracle, truncate a
response body at 20000 characters with the `"\n... (truncated)"` marker, and
map each failure kind to its error string.  The request itself is consumed by
the oracle, so the merged headers and cookies are latent state here. -/
def run_single_test (test : TestCase) (now : String)
    (cookies : List (String × String)) (headers : List (String × String))
    (net : NetOutcome) : TestResult :=
  let request_headers :=
    dict_update (dict_update headers DEFAULT_RESEARCHER_HEADER) test.headers
  let cookie_dict := if test.cookies then cookies else []
  let base : TestResult :=
    { test_id := test.test_id
      test_type := test.test_type
      endpoint := test.endpoint
      method := test.method
      url := test.url
      timestamp := now
      success := false
      error := none
      response := none }
  let _ := request_headers
  let _ := cookie_dict
  match net with
  | .ok status status_text hs body =>
    let response_body :=
      if pyLen body > 20000 then pySlice body 20000 ++ "\n... (truncated)"
      else body
    { base with
      success := true
      response := some
        { status := status, status_text := status_text, headers := hs
          body := response_body } }
  | .timeout => { base with error := some "Request timeout" }
  | .requestError d => { base with error := some ("Request error: " ++ d) }
  | .unexpectedError d =>
    { base with error := some ("Unexpected error: " ++ d) }

/-- `test_runner.run_tests`: one task per test, one result per task, results
collected in task order (`asyncio.gather`).  The timestamp and the network are
indexed by task position. -/
def run_tests (tests : List TestCase) (now : Nat → String)
    (cookies : List (String × String)) (headers : List (String × String))
    (net : Nat → NetOutcome) : List TestResult :=
  tests.enum.map (fun p => run_single_test p.2 (now p.1) cookies headers (net p.1))

/-! ### `test_runner.RateLimiter` as a transition system

`RateLimiter.acquire` (lines 29-37) contains exactly one suspension point, the
`await asyncio.sleep`.  Under the asyncio event loop the code before the await
(read the clock, compare against `last_request_time`, compute the sleep) and
the code after it (write `last_request_time`, return the token) each run
atomically, but between them any other task may run.  The state below is the
loop clock, the limiter's `last_request_time`, and each acquiring task's phase;
the actions are "run the next atomic segment of task `i`" and "let the clock
advance" (a sleeping task may resume only once the clock has reached its wake
time).  Time is in milliseconds, so rate 2.0/s gives `min_interval = 500`. -/

/-- Phase of one task inside `acquire`. -/
inductive TaskPhase where
  | pre
  | sleeping (wake : Nat)
  | granted (time : Nat)
deriving DecidableEq

/-- The event loop state. -/
structure RLState where
  clock : Nat
  last_request_time : Nat
  tasks : List TaskPhase
deriving DecidableEq

/-- Scheduler actions. -/
inductive RLAct where
  | run (i : Nat)
  | tick (d : Nat)

/-- One scheduler step.  `run i` on a `pre` task executes lines 31-35: if the
time since the last token is below `min_interval` the task sleeps until
`clock + (min_interval - elapsed)`, otherwise it writes `last_request_time`
and returns at once.  `run i` on a sleeping task whose wake time has arrived
executes line 37: write `last_request_time := clock` and return the token. -/
def rl_step (min_interval : Nat) (s : RLState) : RLAct → RLState
  | .tick d => { s with clock := s.clock + d }
  | .run i =>
    match s.tasks[i]? with
    | some .pre =>
      let time_since_last := s.clock - s.last_request_time
      if time_since_last < min_interval then
        { s with tasks :=
            s.tasks.set i (.sleeping (s.clock + (min_interval - time_since_last))) }
      else
        { s with
          last_request_time := s.clock
          tasks := s.tasks.set i (.granted s.clock) }
    | some (.sleeping wake) =>
      if wake ≤ s.clock then
        { s with
          last_request_time := s.clock
          tasks := s.tasks.set i (.granted s.clock) }
      else s
    | _ => s

/-- Run a schedule. -/
def rl_run (min_interval : Nat) (s0 : RLState) (acts : List RLAct) : RLState :=
  acts.foldl (rl_step min_interval) s0

/-- The token grant instants, in task order. -/
def rl_grants (s : RLState) : List Nat :=
  s.tasks.filterMap (fun t =>
    match t with
    | .granted g => some g
    | _ => none)

/-! ## `analyzer/diff_analyzer.py`

A `DeepDiff` object is a dictionary from change categories to collections of
path strings; `calculate_severity` only consumes the three category key sets
(via `detect_sensitive_field_changes`) and the `old_value`/`new_value` keys of
the *root* dictionary, which `DeepDiff` never populates (the root keys are
category names), hence the two `Option`s below that stay `none` for every
diff the pipeline builds. -/

/-- The view of a `DeepDiff` result consumed by `calculate_severity`. -/
structure DeepDiffResult where
  dictionary_item_added : List String
  dictionary_item_removed : List String
  values_changed : List String
  root_old_value : Option String
  root_new_value : Option String

/-- Python truthiness of the diff dictionary. -/
def ddTruthy (d : DeepDiffResult) : Bool :=
  !d.dictionary_item_added.isEmpty || !d.dictionary_item_removed.isEmpty ||
  !d.values_changed.isEmpty || d.root_old_value.isSome ||
  d.root_new_value.isSome

/-- `diff_analyzer.detect_sensitive_field_changes`: collect every change path
whose lower-cased text contains one of the `SENSITIVE_FIELDS` tokens verbatim
(the tokens themselves are *not* lower-cased by the source). -/
def detect_sensitive_field_changes (diff : DeepDiffResult) : List String :=
  let hit := fun (path : String) =>
    SENSITIVE_FIELDS.any (fun sens => strContains (lowerStr path) sens)
  diff.dictionary_item_added.filter hit ++
  diff.dictionary_item_removed.filter hit ++
  diff.values_changed.filter hit

/-- Status-map lookup (`baseline_status in STATUS_CHANGE_HIGH`). -/
def lookupStatus (m : List (Int × List Int)) (k : Int) : Option (List Int) :=
  (m.find? (fun p => p.1 == k)).map (fun p => p.2)

/-- `Option.isSome`-style truthiness of `diff` (`if diff:`). -/
def diffTruthy (diff : Option DeepDiffResult) : Bool :=
  match diff with
  | some d => ddTruthy d
  | none => false

/-- `diff_analyzer.calculate_severity` (lines 148-195), with the source's
early returns rendered as a nested conditional in the same order: the
status-change HIGH map, the status-change MEDIUM map, then (inside `if diff:`)
sensitive paths, then the length rule over the absent root `old_value` /
`new_value` keys, then the 200→200 rule, then LOW.  The float comparison
`length_diff > 0.30` is modelled exactly as `10 * |delta| > 3 * baseline`. -/
def calculate_severity (baseline_status test_status : Int)
    (diff : Option DeepDiffResult) (test_type : String) : String :=
  let statusHigh :=
    match lookupStatus STATUS_CHANGE_HIGH baseline_status with
    | some ts => ts.contains test_status
    | none => false
  if statusHigh then "HIGH"
  else
    let statusMedium :=
      match lookupStatus STATUS_CHANGE_MEDIUM baseline_status with
      | some ts => ts.contains test_status
      | none => false
    if statusMedium then "MEDIUM"
    else
      let fromDiff : Option String :=
        match diff with
        | some d =>
          if ddTruthy d then
            if !(detect_sensitive_field_changes d).isEmpty then some "HIGH"
            else
              let baseline_body_len := pyLen (d.root_old_value.getD "")
              let test_body_len := pyLen (d.root_new_value.getD "")
              if baseline_body_len > 0 &&
                  10 * (max test_body_len baseline_body_len -
                    min test_body_len baseline_body_len) >
                    LENGTH_DIFF_THRESHOLD_TENTHS * baseline_body_len then
                some "MEDIUM"
              else none
          else none
        | none => none
      match fromDiff with
      | some sev => sev
      | none =>
        if baseline_status == 200 && test_status == 200 && diffTruthy diff then
          if test_type == "IDOR" then "HIGH" else "MEDIUM"
        else if diffTruthy diff then "LOW"
        else "LOW"

/-! ## Specification-side characterizations

These definitions follow the wording of the specification (not the source) and
exist only to be compared against the source embedding in the refinement
theorems below. -/

/-- A JSON parse of a body text that Python's `if json_body:` accepts. -/
def truthyParse (t : String) : Option JVal :=
  match extract_json_body t with
  | some v => if jTruthy v then some v else none
  | none => none

/-- Spec-side characterization of an endpoint's sample bodies: the truthy JSON
parses of the chosen body texts of the grouped requests, in request order,
capped at five. -/
def sampleBodiesSpec (reqs : List CapturedRequest) : List JVal :=
  (reqs.filterMap (fun r => truthyParse (chosen_body_text r))).take 5

/-! ## Concrete fixtures used by the claim theorems -/

/-- Capture log of scenario 1: `GET /api/users/42` and `GET /api/users/43`,
both with responses. -/
def log42 : List CapturedRequest :=
  [{ method := "GET", url := "/api/users/42", post_data := ""
     response := some { status := 200, body := "" } },
   { method := "GET", url := "/api/users/43", post_data := ""
     response := some { status := 200, body := "" } }]

/-- A captured request whose request body is empty but whose response body is
the JSON object `{"a": 1}`. -/
def logFallback : List CapturedRequest :=
  [{ method := "GET", url := "/e?tag=x", post_data := ""
     response := some { status := 200, body := "\x7b\"a\": 1\x7d" } }]

/-- A captured request whose non-empty request body fails JSON parsing. -/
def reqBadBody : CapturedRequest :=
  { method := "POST", url := "/w?q=1", post_data := "notjson"
    response := some { status := 200, body := "" } }

/-- The users endpoint of scenario 3: `/users/{id:int}` with integer pool
`{1, 2}` under the pool name `id`. -/
def usersEp : GenEndpoint :=
  { method := "GET", templated_path := "/users/{id:int}", sample_bodies := []
    id_pools := [("id", { integer_ids := [.jnum 1, .jnum 2], uuid_ids := []
                          string_ids := [] })] }

/-- The projects endpoint of scenario 3: `/projects/{id:int}` with integer
pool `{100}` under the pool name `project_id`. -/
def projectsEp : GenEndpoint :=
  { method := "GET", templated_path := "/projects/{id:int}", sample_bodies := []
    id_pools := [("project_id", { integer_ids := [.jnum 100], uuid_ids := []
                                  string_ids := [] })] }

/-- An endpoint whose observed method is DELETE (a captured DELETE request). -/
def deleteEp : GenEndpoint :=
  { method := "DELETE", templated_path := "/z", sample_bodies := []
    id_pools := [] }

/-- A plain GET endpoint (witness input). -/
def getEp : GenEndpoint :=
  { method := "GET", templated_path := "/g", sample_bodies := [], id_pools := [] }

/-- A POST endpoint with no sample bodies (mass-assignment input). -/
def massEp : GenEndpoint :=
  { method := "POST", templated_path := "/m", sample_bodies := []
    id_pools := [] }

/-- A deterministic stand-in for the randomness oracle. -/
def zeroOracle : Nat → Nat := fun _ => 0

/-- A `post_data` replacement map that blanks every request body (witness
input for body-irrelevance of path/query analysis). -/
def erasePostData : CapturedRequest → String := fun _ => ""

/-- A diff whose only change path carries the sensitive token `role`. -/
def roleDiff : DeepDiffResult :=
  { dictionary_item_added := [], dictionary_item_removed := []
    values_changed := ["root[\x27role\x27]"], root_old_value := none
    root_new_value := none }

/-- The diff `compare_responses` builds for two unequal non-JSON bodies: a
single value change at `root['body']`, and no `old_value`/`new_value` keys at
the diff root. -/
def bodyDiff : DeepDiffResult :=
  { dictionary_item_added := [], dictionary_item_removed := []
    values_changed := ["root[\x27body\x27]"], root_old_value := none
    root_new_value := none }

/-- A test case fixture for the replay engine. -/
def wTest1 : TestCase :=
  { test_id := "w1", test_type := "IDOR", endpoint := "/a", method := "GET"
    url := "/a", headers := [], body := none, cookies := true
    description := "" }

/-- A second test case fixture with a distinct id. -/
def wTest2 : TestCase :=
  { test_id := "w2", test_type := "AUTH_BYPASS", endpoint := "/a"
    method := "GET", url := "/a", headers := [], body := none, cookies := false
    description := "" }

/-- A network oracle that times the first task out and answers the rest. -/
def wNet : Nat → NetOutcome := fun i =>
  if i == 0 then .timeout else .ok 200 "OK" [] "x"

/-- A constant timestamp oracle. -/
def wNow : Nat → String := fun _ => "t0"

/-- A response body of 20100 characters: longer than the runner's hardcoded
20000-character cut, shorter than `MAX_BODY_SIZE = 20480`. -/
def bigBody : String := String.mk (List.replicate 20100 'a')

/-- Two tasks calling `acquire` concurrently on a fresh `RateLimiter(2.0)`:
both run the pre-sleep segment (each sees `last_request_time = 0` and goes to
sleep until t=500ms), the clock reaches 500ms, then both wake and are granted
their tokens. -/
def rlCollision : RLState :=
  rl_run 500 { clock := 0, last_request_time := 0, tasks := [.pre, .pre] }
    [.run 0, .run 1, .tick 500, .run 0, .run 1]

/-! ## Helper lemmas -/

/-- Unrolling one emitting iteration of the IDOR loop. -/
theorem idor_go_emit {pools : List (String × PoolDict)}
    {ap : List (String × List JVal)} {tp m : String}
    {sb : List (List (String × JVal))} {oracle : Nat → Nat}
    {fuel i k : Nat} {t : TestCase} {c : Nat}
    (h : idor_iteration pools ap tp m sb oracle i k = .emit t c) :
    idor_go pools ap tp m sb oracle (fuel + 1) i k =
      t :: idor_go pools ap tp m sb oracle fuel (i + 1) (k + c) := by
  rw [idor_go, h]

/-- A test emitted by an IDOR iteration carries the endpoint's method. -/
theorem idor_iteration_emit_method {pools : List (String × PoolDict)}
    {ap : List (String × List JVal)} {tp m : String}
    {sb : List (List (String × JVal))} {oracle : Nat → Nat}
    {i k : Nat} {t : TestCase} {c : Nat}
    (h : idor_iteration pools ap tp m sb oracle i k = .emit t c) :
    t.method = m := by
  simp only [idor_iteration] at h
  repeat' split at h
  all_goals cases h
  all_goals rfl

/-- Every test produced by the IDOR loop carries the endpoint's method. -/
theorem idor_go_method {pools : List (String × PoolDict)}
    {ap : List (String × List JVal)} {tp m : String}
    {sb : List (List (String × JVal))} {oracle : Nat → Nat} :
    ∀ {fuel i k : Nat} {t : TestCase},
      t ∈ idor_go pools ap tp m sb oracle fuel i k → t.method = m := by
  intro fuel
  induction fuel with
  | zero => intro i k t ht; simp [idor_go] at ht
  | succ n ih =>
    intro i k t ht
    rw [idor_go] at ht
    split at ht
    · simp at ht
    · exact ih ht
    · next t' c hstep =>
      rcases List.mem_cons.mp ht with rfl | ht'
      · exact idor_iteration_emit_method hstep
      · exact ih ht'

/-- IDOR tests use the endpoint's observed method. -/
theorem generate_idor_tests_method {endpoint : GenEndpoint}
    {all_endpoints : List GenEndpoint} {oracle : Nat → Nat} {count : Nat}
    {t : TestCase}
    (ht : t ∈ generate_idor_tests endpoint all_endpoints oracle count) :
    t.method = endpoint.method := by
  unfold generate_idor_tests at ht
  split at ht
  · simp at ht
  · exact idor_go_method (List.mem_of_mem_take ht)

/-- AUTH_BYPASS tests use the endpoint's observed method. -/
theorem generate_auth_bypass_tests_method {endpoint : GenEndpoint}
    {count : Nat} {t : TestCase}
    (ht : t ∈ generate_auth_bypass_tests endpoint count) :
    t.method = endpoint.method := by
  simp only [generate_auth_bypass_tests, List.mem_map] at ht
  obtain ⟨i, _, rfl⟩ := ht
  rfl

/-- With `allow_destructive = false`, METHOD_CONFUSION never emits DELETE. -/
theorem generate_method_confusion_no_delete {endpoint : GenEndpoint}
    {count : Nat} {t : TestCase}
    (ht : t ∈ generate_method_confusion_tests endpoint false count) :
    t.method ≠ "DELETE" := by
  simp only [generate_method_confusion_tests, List.mem_map] at ht
  obtain ⟨mth, hm, rfl⟩ := ht
  have hm' := List.mem_of_mem_take hm
  simp only [Bool.not_false, if_true, List.mem_filter] at hm'
  intro hEq
  have h2 := hm'.2
  rw [show mth = "DELETE" from hEq] at h2
  simp [DESTRUCTIVE_METHODS] at h2

/-- MASS_ASSIGNMENT tests use the endpoint's observed method. -/
theorem generate_mass_assignment_tests_method {endpoint : GenEndpoint}
    {count : Nat} {t : TestCase}
    (ht : t ∈ generate_mass_assignment_tests endpoint count) :
    t.method = endpoint.method := by
  unfold generate_mass_assignment_tests at ht
  split at ht
  · simp at ht
  · simp only [List.mem_map] at ht
    obtain ⟨p, _, rfl⟩ := ht
    rfl

/-- One body-accumulation step appends exactly the truthy parse of the chosen
body text. -/
theorem bodyStep_fst (acc : List JVal × List (String × List String))
    (req : CapturedRequest) :
    (bodyStep acc req).1 =
      acc.1 ++ (truthyParse (chosen_body_text req)).toList := by
  unfold bodyStep truthyParse
  rcases he : extract_json_body (chosen_body_text req) with _ | v
  · simp
  · rcases ht : jTruthy v <;> simp [ht]

/-- The sample-body side of the accumulation is the truthy parses of the
chosen body texts, in request order. -/
theorem bodyAccum_fst :
    ∀ (reqs : List CapturedRequest)
      (acc : List JVal × List (String × List String)),
      (reqs.foldl bodyStep acc).1 =
        acc.1 ++ reqs.filterMap (fun r => truthyParse (chosen_body_text r))
  | [], acc => by simp
  | r :: rs, acc => by
    rw [List.foldl_cons, bodyAccum_fst rs (bodyStep acc r), bodyStep_fst]
    rcases h : truthyParse (chosen_body_text r) with _ | v <;>
      simp [h, List.filterMap_cons]

/-- A request whose chosen body text does not parse truthily is a no-op for
the body accumulation. -/
theorem bodyStep_none {req : CapturedRequest}
    (h : truthyParse (chosen_body_text req) = none)
    (acc : List JVal × List (String × List String)) :
    bodyStep acc req = acc := by
  unfold bodyStep
  unfold truthyParse at h
  rcases he : extract_json_body (chosen_body_text req) with _ | v
  · rfl
  · rw [he] at h
    rcases ht : jTruthy v
    · simp [ht]
    · simp [ht] at h

/-- Dropping a request with no truthy body parse leaves the accumulated
sample bodies and body parameters unchanged. -/
theorem bodyAccum_skips {r : CapturedRequest}
    (h : truthyParse (chosen_body_text r) = none)
    (pre post : List CapturedRequest) :
    bodyAccum (pre ++ r :: post) = bodyAccum (pre ++ post) := by
  unfold bodyAccum
  rw [List.foldl_append, List.foldl_append, List.foldl_cons, bodyStep_none h]

/-- Query analysis is independent of every request's `post_data`. -/
theorem queryParamsOf_post_data (reqs : List CapturedRequest)
    (f : CapturedRequest → String) :
    queryParamsOf (reqs.map (fun q => { q with post_data := f q })) =
      queryParamsOf reqs := by
  unfold queryParamsOf
  rw [List.foldl_map]
  exact List.foldl_ext _ _ [] (fun a b _ => rfl)

/-- Path analysis is independent of every request's `post_data`. -/
theorem pathParamsOf_post_data (base_path : String)
    (reqs : List CapturedRequest) (f : CapturedRequest → String) :
    pathParamsOf base_path (reqs.map (fun q => { q with post_data := f q })) =
      pathParamsOf base_path reqs := by
  unfold pathParamsOf
  rw [List.foldl_map]
  exact List.foldl_ext _ _ [] (fun a b _ => rfl)

/-- A replay result echoes its test's id whatever the network does. -/
theorem run_single_test_test_id (t : TestCase) (now : String)
    (cookies headers : List (String × String)) (net : NetOutcome) :
    (run_single_test t now cookies headers net).test_id = t.test_id := by
  cases net <;> rfl

/-! ## Claim theorems -/

/-- Claim C1 (code bug): on the capture log containing exactly
`GET /api/users/42` and `GET /api/users/43`, both with responses, the Endpoint
Modeler produces *two* endpoints, both with `(method, templated_path) =
(GET, /api/users/{id:int})` — the claimed uniqueness of `(method,
templated_path)` and the claimed single collapsed Endpoint both fail, because
`parse_requests` groups by the *concrete* path before templating. -/
theorem C1_duplicate_templated_paths :
    (parse_requests log42).map (fun e => (e.method, e.templated_path)) =
      [("GET", "/api/users/{id:int}"), ("GET", "/api/users/{id:int}")] := rfl

/-- Claim C2 (confirmed): for the endpoint set `/users/{id:int}` with integer
pool {1, 2} (pool name `id`) and `/projects/{id:int}` with integer pool {100}
(pool name `project_id`), the IDOR generator emits a test with URL
`/users/100` for *every* behaviour of the randomness oracle: the first other
pool name of the global union (`project_id`) always yields the candidate 100,
which differs from both possible original ids. -/
theorem C2_cross_pool_idor_hits_projects_pool (oracle : Nat → Nat) :
    ∃ t ∈ generate_idor_tests usersEp [usersEp, projectsEp] oracle 10,
      t.url = "/users/100" := by
  obtain ⟨t, hstep, hurl⟩ : ∃ t, idor_iteration usersEp.id_pools
      (build_all_id_pools [usersEp, projectsEp]) "/users/{id:int}" "GET" []
      oracle 0 0 = .emit t 3 ∧ t.url = "/users/100" := by
    rcases Nat.mod_two_eq_zero_or_one (oracle 1) with h | h <;>
    · simp [idor_iteration, pyChoice, usersEp, projectsEp, build_all_id_pools,
        poolAll, alistGet?, alistSet, jTruthy, jScalarEq, Nat.mod_one, h,
        List.getD, List.findSome?, List.filter]
      rfl
  refine ⟨t, ?_, hurl⟩
  have hrepr : generate_idor_tests usersEp [usersEp, projectsEp] oracle 10 =
      (idor_go usersEp.id_pools (build_all_id_pools [usersEp, projectsEp])
        "/users/{id:int}" "GET" [] oracle 5 0 0).take 10 := rfl
  rw [hrepr, idor_go_emit hstep]
  simp

/-- Claim C2 witness: the cross-pool variant exists under the concrete zero
oracle. -/
theorem C2_cross_pool_idor_hits_projects_pool_witness :
    ∃ t ∈ generate_idor_tests usersEp [usersEp, projectsEp] zeroOracle 10,
      t.url = "/users/100" :=
  C2_cross_pool_idor_hits_projects_pool zeroOracle

/-- Claim C3 counterexample: for an endpoint whose observed method is DELETE,
generation with `allow_destructive = false` still emits TestCases with method
DELETE (the AUTH_BYPASS and IDOR classes reuse the endpoint's own method; only
METHOD_CONFUSION is gated). -/
theorem C3_delete_endpoint_auth_bypass_delete :
    (generate_tests_for_endpoint deleteEp [deleteEp] zeroOracle false 30).any
      (fun t => t.method == "DELETE") = true := rfl

/-- Claim C3 (amended): with `allow_destructive = false`, no METHOD_CONFUSION
test has method DELETE, and since IDOR, AUTH_BYPASS and MASS_ASSIGNMENT reuse
the endpoint's observed method, an endpoint whose observed method is not
DELETE generates no TestCase of any class with method DELETE. -/
theorem C3_no_delete_for_non_delete_endpoint (ep : GenEndpoint)
    (all_endpoints : List GenEndpoint) (oracle : Nat → Nat) (max_tests : Nat)
    (h : ep.method ≠ "DELETE") :
    ∀ t ∈ generate_tests_for_endpoint ep all_endpoints oracle false max_tests,
      t.method ≠ "DELETE" := by
  intro t ht
  have ht' : t ∈ generate_idor_tests ep all_endpoints oracle ++
      generate_auth_bypass_tests ep ++
      generate_method_confusion_tests ep false ++
      generate_mass_assignment_tests ep := by
    simp only [generate_tests_for_endpoint] at ht
    split at ht
    · exact List.mem_of_mem_take ht
    · exact ht
  rcases List.mem_append.mp ht' with h3 | h4
  · rcases List.mem_append.mp h3 with h5 | h6
    · rcases List.mem_append.mp h5 with h7 | h8
      · rw [generate_idor_tests_method h7]; exact h
      · rw [generate_auth_bypass_tests_method h8]; exact h
    · exact generate_method_confusion_no_delete h6
  · rw [generate_mass_assignment_tests_method h4]; exact h

/-- Claim C3 witness: the amended destructive gate at a concrete GET
endpoint. -/
theorem C3_no_delete_for_non_delete_endpoint_witness :
    getEp.method ≠ "DELETE" ∧
    ∀ t ∈ generate_tests_for_endpoint getEp [getEp] zeroOracle false 30,
      t.method ≠ "DELETE" :=
  ⟨by decide, C3_no_delete_for_non_delete_endpoint getEp [getEp] zeroOracle 30
    (by decide)⟩

/-- Claim C4 counterexample: a diff whose change path carries the sensitive
token `role`, with baseline status 400 and test status 200, is classified
MEDIUM, not HIGH — `calculate_severity` checks the status-MEDIUM map before
the sensitive-field rule, so the spec's rule 2 does not precede rule 4. -/
theorem C4_sensitive_diff_400_to_200_not_high :
    detect_sensitive_field_changes roleDiff = ["root[\x27role\x27]"] ∧
    calculate_severity 400 200 (some roleDiff) "IDOR" = "MEDIUM" :=
  ⟨rfl, rfl⟩

/-- Claim C4 (amended): `calculate_severity` evaluates the status-change rules
first — HIGH for baseline ∈ {401,403,404}, then MEDIUM for baseline ∈
{400,404} — before any diff-based rule; with baseline 400 and test 200 the
result is MEDIUM for every diff and test type, sensitive fields included. -/
theorem C4_status_rule_precedes_sensitive_rule (d : Option DeepDiffResult)
    (tt : String) : calculate_severity 400 200 d tt = "MEDIUM" := rfl

/-- Claim C4 witness: the amended rule order at a concrete sensitive diff. -/
theorem C4_status_rule_precedes_sensitive_rule_witness :
    calculate_severity 400 200 (some roleDiff) "AUTH_BYPASS" = "MEDIUM" :=
  C4_status_rule_precedes_sensitive_rule (some roleDiff) "AUTH_BYPASS"

/-- Claim C5 counterexample: the suspicious field `permissions` is injected
with boolean true, not the string `"full"` — the source tests
`"is" in field.lower()` (substring), and `permissions` contains `is`. -/
theorem C5_permissions_field_injected_true :
    ((generate_mass_assignment_tests massEp 9).map (fun t => t.body))[8]? =
      some (some [("permissions", JVal.jbool true)]) := rfl

/-- Claim C5 (amended): the injected value is boolean true if the name
contains `admin` or contains `is` anywhere (not merely begins with `is`);
string `"admin"` if it contains `role`; string `"full"` if it contains
`permission` or `access`; boolean true otherwise.  In particular `permissions`
and `permission` (which contain `is`) receive boolean true, while
`accessLevel` and `access_level` receive `"full"`.  Enumerated over the whole
suspicious-field vocabulary on a bodyless POST endpoint. -/
theorem C5_mass_assignment_value_by_name :
    (generate_mass_assignment_tests massEp 18).map (fun t => t.body) =
      [some [("isAdmin", .jbool true)], some [("is_admin", .jbool true)],
       some [("admin", .jbool true)], some [("role", .jstr "admin")],
       some [("roles", .jstr "admin")], some [("isOwner", .jbool true)],
       some [("is_owner", .jbool true)], some [("owner", .jbool true)],
       some [("permissions", .jbool true)], some [("permission", .jbool true)],
       some [("accessLevel", .jstr "full")],
       some [("access_level", .jstr "full")],
       some [("privileges", .jbool true)], some [("privilege", .jbool true)],
       some [("superuser", .jbool true)], some [("super_user", .jbool true)],
       some [("isSuperuser", .jbool true)],
       some [("is_superuser", .jbool true)]] := rfl

/-- Claim C6 counterexample: a captured request whose *request* body is empty
still contributes to `sample_bodies` and `parameters.body` — the source falls
back to the response body (`{"a": 1}` here), so the derivation is not
exclusively from request bodies. -/
theorem C6_empty_request_body_uses_response_body :
    (parse_requests logFallback).map
        (fun e => (e.sample_bodies, e.param_body, e.param_query)) =
      [([JVal.jobj [("a", JVal.jnum 1)]], [("a", ["1"])], [("tag", ["x"])])] :=
  rfl

/-- Claim C6 (amended): `parameters.body` entries and `sample_bodies` are
derived exactly from the truthy JSON parses of the *chosen* body text — the
request `post_data` when non-empty, otherwise the response body; a request
whose chosen text is empty, fails JSON parsing, or parses falsy contributes
nothing to either, and path/query analysis is independent of every request's
`post_data`.  The `body_obj_safe` hypothesis restricts to logs on which the
Python loop is total (a truthy non-object parse raises `AttributeError` at
`json_body.items()` and aborts the stage). -/
theorem C6_body_params_from_chosen_body_text (m p : String)
    (reqs pre post : List CapturedRequest) (r : CapturedRequest)
    (f : CapturedRequest → String)
    (hsafe : ((reqs ++ pre ++ r :: post).all body_obj_safe) = true)
    (hr : truthyParse (chosen_body_text r) = none) :
    (buildEndpoint m p reqs).sample_bodies = sampleBodiesSpec reqs
    ∧ (buildEndpoint m p (pre ++ r :: post)).sample_bodies =
        (buildEndpoint m p (pre ++ post)).sample_bodies
    ∧ (buildEndpoint m p (pre ++ r :: post)).param_body =
        (buildEndpoint m p (pre ++ post)).param_body
    ∧ (buildEndpoint m p
        (reqs.map (fun q => { q with post_data := f q }))).param_query =
        (buildEndpoint m p reqs).param_query
    ∧ (buildEndpoint m p
        (reqs.map (fun q => { q with post_data := f q }))).param_path =
        (buildEndpoint m p reqs).param_path := by
  have _ := hsafe
  refine ⟨?_, ?_, ?_, ?_, ?_⟩
  · show ((bodyAccum reqs).1).take 5 = sampleBodiesSpec reqs
    unfold bodyAccum sampleBodiesSpec
    rw [bodyAccum_fst]
    simp
  · show ((bodyAccum (pre ++ r :: post)).1).take 5 =
      ((bodyAccum (pre ++ post)).1).take 5
    rw [bodyAccum_skips hr]
  · show ((bodyAccum (pre ++ r :: post)).2.map
        (fun kv => (kv.1, kv.2.take 10))) =
      ((bodyAccum (pre ++ post)).2.map (fun kv => (kv.1, kv.2.take 10)))
    rw [bodyAccum_skips hr]
  · exact queryParamsOf_post_data reqs f
  · exact pathParamsOf_post_data p reqs f

/-- Claim C6 witness: the amended body semantics at a concrete request whose
non-empty body fails JSON parsing. -/
theorem C6_body_params_from_chosen_body_text_witness :
    (([reqBadBody] ++ [] ++ reqBadBody :: []).all body_obj_safe) = true ∧
    truthyParse (chosen_body_text reqBadBody) = none ∧
    ((buildEndpoint "GET" "/w" [reqBadBody]).sample_bodies =
        sampleBodiesSpec [reqBadBody]
      ∧ (buildEndpoint "GET" "/w" ([] ++ reqBadBody :: [])).sample_bodies =
          (buildEndpoint "GET" "/w" ([] ++ [])).sample_bodies
      ∧ (buildEndpoint "GET" "/w" ([] ++ reqBadBody :: [])).param_body =
          (buildEndpoint "GET" "/w" ([] ++ [])).param_body
      ∧ (buildEndpoint "GET" "/w"
          ([reqBadBody].map (fun q =>
            { q with post_data := erasePostData q }))).param_query =
          (buildEndpoint "GET" "/w" [reqBadBody]).param_query
      ∧ (buildEndpoint "GET" "/w"
          ([reqBadBody].map (fun q =>
            { q with post_data := erasePostData q }))).param_path =
          (buildEndpoint "GET" "/w" [reqBadBody]).param_path) :=
  ⟨rfl, rfl, C6_body_params_from_chosen_body_text "GET" "/w" [reqBadBody] []
    [] reqBadBody erasePostData rfl rfl⟩

/-- Claim C7 (confirmed): the Replay Engine returns exactly one TestResult per
TestCase — the result list echoes the test ids positionally, so with distinct
test ids each id appears exactly once — and a failed request carries exactly
one of the three error strings of the source's exception arms. -/
theorem C7_replay_totality (tests : List TestCase) (now : Nat → String)
    (cookies headers : List (String × String)) (net : Nat → NetOutcome)
    (h : (tests.map (fun t => t.test_id)).Nodup) :
    (run_tests tests now cookies headers net).length = tests.length
    ∧ (run_tests tests now cookies headers net).map (fun r => r.test_id) =
        tests.map (fun t => t.test_id)
    ∧ (∀ tid ∈ tests.map (fun t => t.test_id),
        ((run_tests tests now cookies headers net).map
          (fun r => r.test_id)).count tid = 1)
    ∧ ∀ r ∈ run_tests tests now cookies headers net, r.success = false →
        r.error = some "Request timeout"
        ∨ (∃ d, r.error = some ("Request error: " ++ d))
        ∨ (∃ d, r.error = some ("Unexpected error: " ++ d)) := by
  have hmap : (run_tests tests now cookies headers net).map
      (fun r => r.test_id) = tests.map (fun t => t.test_id) := by
    unfold run_tests
    rw [List.map_map]
    have hcomp : ((fun r => r.test_id) ∘ fun p : Nat × TestCase =>
        run_single_test p.2 (now p.1) cookies headers (net p.1)) =
        (fun p : Nat × TestCase => p.2.test_id) := by
      funext p
      exact run_single_test_test_id p.2 (now p.1) cookies headers (net p.1)
    rw [hcomp]
    have hsnd : (fun p : Nat × TestCase => p.2.test_id) =
        ((fun t : TestCase => t.test_id) ∘ Prod.snd) := rfl
    rw [hsnd, ← List.map_map, List.enum_map_snd]
  refine ⟨?_, hmap, ?_, ?_⟩
  · have := congrArg List.length hmap
    simpa using this
  · intro tid htid
    rw [hmap]
    exact List.count_eq_one_of_mem h htid
  · intro r hr hfail
    unfold run_tests at hr
    obtain ⟨p, _, rfl⟩ := List.mem_map.mp hr
    rcases hnet : net p.1 with ⟨st, stt, hs, b⟩ | _ | d | d
    · rw [hnet] at hfail
      simp [run_single_test] at hfail
    · exact Or.inl rfl
    · exact Or.inr (Or.inl ⟨d, rfl⟩)
    · exact Or.inr (Or.inr ⟨d, rfl⟩)

/-- Claim C7 witness: totality at a concrete two-test run whose first request
times out. -/
theorem C7_replay_totality_witness :
    ([wTest1, wTest2].map (fun t => t.test_id)).Nodup ∧
    ((run_tests [wTest1, wTest2] wNow [] [] wNet).length =
        [wTest1, wTest2].length
      ∧ (run_tests [wTest1, wTest2] wNow [] [] wNet).map
          (fun r => r.test_id) = [wTest1, wTest2].map (fun t => t.test_id)
      ∧ (∀ tid ∈ [wTest1, wTest2].map (fun t => t.test_id),
          ((run_tests [wTest1, wTest2] wNow [] [] wNet).map
            (fun r => r.test_id)).count tid = 1)
      ∧ ∀ r ∈ run_tests [wTest1, wTest2] wNow [] [] wNet,
          r.success = false →
          r.error = some "Request timeout"
          ∨ (∃ d, r.error = some ("Request error: " ++ d))
          ∨ (∃ d, r.error = some ("Unexpected error: " ++ d))) :=
  ⟨by decide, C7_replay_totality [wTest1, wTest2] wNow [] [] wNet (by decide)⟩

/-- Claim C8 (code bug): with baseline status 500, test status 500, and the
diff `compare_responses` builds for the non-JSON bodies `"aaaa"` (baseline)
and `"aaaaaaaa"` (test), the code returns LOW even though the body-length
delta (4 of 4) far exceeds 30% of the baseline length — the length rule reads
`old_value`/`new_value` at the diff *root*, which `DeepDiff` never populates,
so `baseline_body_len` is always 0 and the rule never fires. -/
theorem C8_length_rule_reads_absent_root_fields :
    calculate_severity 500 500 (some bodyDiff) "AUTH_BYPASS" = "LOW" ∧
    10 * (pyLen "aaaaaaaa" - pyLen "aaaa") >
      LENGTH_DIFF_THRESHOLD_TENTHS * pyLen "aaaa" :=
  ⟨rfl, by decide⟩

/-- Claim C9 (code bug): a 20100-character response body — within the claimed
20480-byte (`MAX_BODY_SIZE`) limit, so the claim says it is stored unmodified
— is truncated by the runner to 20000 characters plus the 16-character
truncation marker (stored length 20016), because `run_single_test` hardcodes
20000 instead of using `MAX_BODY_SIZE`. -/
theorem C9_runner_truncates_at_20000_not_20480 :
    pyLen bigBody ≤ MAX_BODY_SIZE
    ∧ (run_single_test wTest1 "t0" [] []
        (.ok 200 "OK" [] bigBody)).response.map (fun rr => pyLen rr.body) =
        some 20016
    ∧ (run_single_test wTest1 "t0" [] []
        (.ok 200 "OK" [] bigBody)).response.map (fun rr => rr.body) ≠
        some bigBody := by
  have hlen : pyLen bigBody = 20100 := by
    rw [show pyLen bigBody = (List.replicate 20100 'a').length from rfl,
      List.length_replicate]
  have hgt : pyLen bigBody > 20000 := by rw [hlen]; norm_num
  have hbody : (run_single_test wTest1 "t0" [] []
      (.ok 200 "OK" [] bigBody)).response.map (fun rr => rr.body) =
      some (pySlice bigBody 20000 ++ "\n... (truncated)") := by
    simp [run_single_test, hgt]
  have hslice : pySlice bigBody 20000 = String.mk (List.replicate 20000 'a') := by
    rw [show pySlice bigBody 20000 =
        String.mk ((List.replicate 20100 'a').take 20000) from rfl,
      List.take_replicate]
    norm_num
  have hblen : pyLen (pySlice bigBody 20000 ++ "\n... (truncated)") = 20016 := by
    rw [hslice]
    rw [show (String.mk (List.replicate 20000 'a') ++ "\n... (truncated)") =
        String.mk (List.replicate 20000 'a' ++ "\n... (truncated)".data)
        from rfl]
    rw [show pyLen (String.mk (List.replicate 20000 'a' ++
        "\n... (truncated)".data)) =
        (List.replicate 20000 'a' ++ "\n... (truncated)".data).length from rfl]
    rw [List.length_append, List.length_replicate]
    rfl
  refine ⟨by rw [hlen]; norm_num [MAX_BODY_SIZE], ?_, ?_⟩
  · have hcomp : (run_single_test wTest1 "t0" [] []
        (.ok 200 "OK" [] bigBody)).response.map (fun rr => pyLen rr.body) =
        ((run_single_test wTest1 "t0" [] []
          (.ok 200 "OK" [] bigBody)).response.map (fun rr => rr.body)).map
            (fun s => pyLen s) := by
      cases (run_single_test wTest1 "t0" [] []
        (.ok 200 "OK" [] bigBody)).response <;> rfl
    rw [hcomp, hbody]
    simpa using hblen
  · intro hcontra
    rw [hbody] at hcontra
    have heq : pySlice bigBody 20000 ++ "\n... (truncated)" = bigBody := by
      simpa using hcontra
    have hL : pyLen (pySlice bigBody 20000 ++ "\n... (truncated)") =
        pyLen bigBody := congrArg pyLen heq
    rw [hblen, hlen] at hL
    norm_num at hL

/-- Claim C10 (code bug): two tasks calling `RateLimiter.acquire` concurrently
on a fresh limiter with `min_interval = 500` ms (rate 2.0/s) can both be
granted a token at the same instant t = 500 ms: both run the pre-sleep segment
before either wakes (the read-modify-write of `last_request_time` is not
mutually exclusive — there is no lock around the `await`), so the grant
instants are not pairwise spaced by `1/R`. -/
theorem C10_concurrent_acquire_grants_collide :
    rl_grants rlCollision = [500, 500] ∧
    ¬ List.Pairwise (fun a b => a + 500 ≤ b) (rl_grants rlCollision) :=
  ⟨rfl, by decide⟩

end SurfaceRecon
